import Mathlib

/-!
Verification of the remote build orchestration pipeline of `cargo-remote`
(fork `hujw77/cargo-remote`), a shallow embedding of `src/main.rs`.

The embedding covers:
* the stable build-path derivation (`DefaultHasher`, i.e. SipHash-1-3 with
  zero keys, applied to the canonical project root path, as in
  `main.rs` lines 120-122);
* the four external commands the pipeline launches (`rsync` push, `ssh`
  remote execute, `rsync` artifact pull-back, `rsync` lock pull-back);
* the control flow of `main` after configuration loading: fail-fast exit
  codes, conditional stages, and forwarding of the remote exit status.

External processes are modelled by an oracle `launch : Stage → Option
ProcStatus`: `none` models `Command::output()` returning `Err` (the child
could not be spawned), `some st` models a completed child with status `st`.
The run result records every stage whose process launch was attempted,
together with the exact command line, and the final process exit code.
-/

/-! ## DefaultHasher: SipHash-1-3 with zero keys

`main.rs` hashes the project directory with
`std::collections::hash_map::DefaultHasher`, which is SipHash-1-3 keyed
with `(0, 0)`.  We model 64-bit words as `Nat` reduced mod `2 ^ 64`. -/

def M64 : Nat := 2 ^ 64

/-- Reduce a value to a 64-bit word. -/
def wrap64 (x : Nat) : Nat := x % M64

/-- 64-bit left rotation. -/
def rotl64 (x n : Nat) : Nat := ((x <<< n) % M64) ||| ((x % M64) >>> (64 - n))

/-- The four 64-bit state words of a SipHash computation. -/
structure SipState where
  v0 : Nat
  v1 : Nat
  v2 : Nat
  v3 : Nat
deriving DecidableEq

/-- One SipRound, as in the Rust standard library's `sip.rs`. -/
def sipRound (s : SipState) : SipState :=
  let v0 := wrap64 (s.v0 + s.v1)
  let v1 := rotl64 s.v1 13
  let v1 := v1 ^^^ v0
  let v0 := rotl64 v0 32
  let v2 := wrap64 (s.v2 + s.v3)
  let v3 := rotl64 s.v3 16
  let v3 := v3 ^^^ v2
  let v0 := wrap64 (v0 + v3)
  let v3 := rotl64 v3 21
  let v3 := v3 ^^^ v0
  let v2 := wrap64 (v2 + v1)
  let v1 := rotl64 v1 17
  let v1 := v1 ^^^ v2
  let v2 := rotl64 v2 32
  ⟨v0, v1, v2, v3⟩

/-- Little-endian interpretation of a byte list as one word. -/
def bytesToWord (bs : List Nat) : Nat :=
  bs.foldr (fun b acc => b % 256 + 256 * acc) 0

/-- Compress one 64-bit message word into the state: `v3 ^= m`, one
SipRound (`SipHasher13` uses one compression round), `v0 ^= m`. -/
def sipCompress (s : SipState) (m : Nat) : SipState :=
  let s1 : SipState := ⟨s.v0, s.v1, s.v2, s.v3 ^^^ m⟩
  let s2 := sipRound s1
  ⟨s2.v0 ^^^ m, s2.v1, s2.v2, s2.v3⟩

/-- Consume all full 8-byte blocks of the message, returning the resulting
state and the remaining tail of fewer than 8 bytes. -/
def sipBlocks (s : SipState) : List Nat → SipState × List Nat
  | b0 :: b1 :: b2 :: b3 :: b4 :: b5 :: b6 :: b7 :: rest =>
      sipBlocks (sipCompress s (bytesToWord [b0, b1, b2, b3, b4, b5, b6, b7])) rest
  | rest => (s, rest)

/-- SipHash-1-3 of a byte string with key `(0, 0)`, exactly the value
`DefaultHasher::new()` + `write(msg)` + `finish()` produces: initial state
constants XORed with the zero key, one compression round per word, final
block `((len & 0xff) << 56) | tail`, `v2 ^= 0xff`, three finalization
rounds, result `v0 ^ v1 ^ v2 ^ v3`. -/
def siphash13 (msg : List Nat) : Nat :=
  let s0 : SipState :=
    ⟨0x736f6d6570736575, 0x646f72616e646f6d, 0x6c7967656e657261, 0x7465646279746573⟩
  let st := sipBlocks s0 msg
  let b := wrap64 (((msg.length % 256) <<< 56) ||| bytesToWord st.2)
  let s1 := sipCompress st.1 b
  let s2 : SipState := ⟨s1.v0, s1.v1, s1.v2 ^^^ 0xff, s1.v3⟩
  let s3 := sipRound (sipRound (sipRound s2))
  wrap64 (s3.v0 ^^^ s3.v1 ^^^ s3.v2 ^^^ s3.v3)

/-! ## Path hashing

`main.rs` line 121 runs `project_dir.hash(&mut hasher)`.  The `Hash`
instance for paths feeds the hasher the bytes of each path component
(separators dropped) followed by the total number of component bytes as an
8-byte little-endian `usize`.  For a canonical absolute Unix path (no
redundant separators, no `.` or `..` components) this is the concatenation
of the component bytes plus the length trailer. -/

/-- The 8 little-endian bytes of a `usize` value. -/
def usizeLE (n : Nat) : List Nat :=
  (List.range 8).map (fun i => (n >>> (8 * i)) % 256)

/-- UTF-8 encoding of one code point. -/
def utf8Enc (c : Nat) : List Nat :=
  if c < 0x80 then [c]
  else if c < 0x800 then
    [0xC0 ||| (c >>> 6), 0x80 ||| (c &&& 0x3F)]
  else if c < 0x10000 then
    [0xE0 ||| (c >>> 12), 0x80 ||| ((c >>> 6) &&& 0x3F), 0x80 ||| (c &&& 0x3F)]
  else
    [0xF0 ||| (c >>> 18), 0x80 ||| ((c >>> 12) &&& 0x3F),
     0x80 ||| ((c >>> 6) &&& 0x3F), 0x80 ||| (c &&& 0x3F)]

/-- UTF-8 bytes of a string, as `Nat`s. -/
def strBytes (s : String) : List Nat :=
  (s.data.map (fun ch => utf8Enc ch.toNat)).flatten

/-- Split a character list at `/`, accumulating the current component. -/
def splitSlash : List Char → List Char → List (List Char)
  | [], cur => [cur.reverse]
  | c :: rest, cur =>
      if c = '/' then cur.reverse :: splitSlash rest []
      else splitSlash rest (c :: cur)

/-- Slash-separated components of a canonical Unix path. -/
def pathComponents (p : String) : List String :=
  ((splitSlash p.data []).filter (fun l => l ≠ [])).map String.mk

/-- The byte stream fed to the hasher for a canonical path: component
bytes concatenated, then the component byte count as a little-endian
`usize`. -/
def pathHashBytes (p : String) : List Nat :=
  let body := ((pathComponents p).map strBytes).flatten
  body ++ usizeLE body.length

/-- `stable_hash` of the spec (§4.3): the deterministic 64-bit hash
`main.rs` computes from the canonical project root path via
`DefaultHasher`. -/
def stable_hash (p : String) : Nat := siphash13 (pathHashBytes p)

/-! ## Resolved remote and command construction

`main.rs` builds each external command from the resolved remote target,
the project directory and the derived build path. -/

/-- The fully resolved remote target (`config::Remote` as consumed by
`main.rs`: fields `host`, `ssh_port`, `temp_dir`, `env`). -/
structure Remote where
  host : String
  ssh_port : Nat
  temp_dir : String
  env : String
deriving DecidableEq

/-- `main.rs` line 12: the rsync progress flag. -/
def PROGRESS_FLAG : String := "--info=progress2"

/-- `main.rs` lines 120-122: the derived remote build path
`format!("{}/{}/", remote.temp_dir, hasher.finish())`. -/
def buildPath (remote : Remote) (project_dir : String) : String :=
  remote.temp_dir ++ "/" ++ toString (stable_hash project_dir) ++ "/"

/-- An external command: program name and argument list. -/
structure Cmd where
  program : String
  args : List String
deriving DecidableEq

/-- `main.rs` lines 126-148: the Push-stage rsync invocation. -/
def rsync_to (remote : Remote) (hidden : Bool) (project_dir bp : String) : Cmd :=
  { program := "rsync"
    args :=
      ["-a", "--delete", "--compress", "-e",
       "ssh -p " ++ toString remote.ssh_port,
       PROGRESS_FLAG, "--exclude", "target"]
      ++ (if hidden then [] else ["--exclude", ".*"])
      ++ ["--rsync-path", "mkdir -p rust && rsync",
          project_dir ++ "/",
          remote.host ++ ":" ++ bp] }

/-- `main.rs` line 156: the remote shell command
`format!("source {}; cd {}; nix-shell;", remote.env, build_path)`. -/
def build_command (remote : Remote) (bp : String) : String :=
  "source " ++ remote.env ++ "; cd " ++ bp ++ "; nix-shell;"

/-- `main.rs` lines 159-163: the RemoteExecute-stage ssh invocation. -/
def ssh_cmd (remote : Remote) (bp : String) : Cmd :=
  { program := "ssh"
    args := ["-p", toString remote.ssh_port, "-t", remote.host,
             build_command remote bp] }

/-- `main.rs` lines 176-191: the PullArtifact-stage rsync invocation,
where `file_name` is `copy_back`'s inner value or `""`. -/
def rsync_back (remote : Remote) (project_dir bp file_name : String) : Cmd :=
  { program := "rsync"
    args :=
      ["-a", "--delete", "--compress", "-e",
       "ssh -p " ++ toString remote.ssh_port,
       PROGRESS_FLAG,
       remote.host ++ ":" ++ bp ++ "target/" ++ file_name,
       project_dir ++ "/target/" ++ file_name] }

/-- `main.rs` lines 207-215: the PullLock-stage rsync invocation. -/
def rsync_lock (remote : Remote) (project_dir bp : String) : Cmd :=
  { program := "rsync"
    args :=
      ["-a", "--delete", "--compress", "-e",
       "ssh -p " ++ toString remote.ssh_port,
       PROGRESS_FLAG,
       remote.host ++ ":" ++ bp ++ "Cargo.lock",
       project_dir ++ "/Cargo.lock"] }

/-! ## Process model and pipeline control flow -/

/-- How a launched child process ended: with an exit code, or without one
(killed by a signal). -/
inductive ProcStatus where
  | exited (c : Int)
  | signaled
deriving DecidableEq

/-- `ExitStatus::success()`: true exactly when the process exited 0. -/
def ProcStatus.success : ProcStatus → Bool
  | .exited c => c == 0
  | .signaled => false

/-- `ExitStatus::code()`: the exit code if there is one. -/
def ProcStatus.exitCode : ProcStatus → Option Int
  | .exited c => some c
  | .signaled => none

/-- The four pipeline stages. -/
inductive Stage where
  | push
  | remoteExecute
  | pullArtifact
  | pullLock
deriving DecidableEq

/-- The observable outcome of one run: the stages whose external process
launch was attempted, in order and with the exact command, and the final
process exit code. -/
structure RunTrace where
  launched : List (Stage × Cmd)
  exitCode : Int
deriving DecidableEq

/-- `main.rs` lines 229-231: after all stages, if the remote build status
was unsuccessful the process exits with `code().unwrap_or(1)`; otherwise
`main` returns normally (exit code 0). -/
def finalExit (out : ProcStatus) : Int :=
  if out.success then 0 else out.exitCode.getD 1

/-- The control flow of `main` from remote resolution onward
(`main.rs` lines 109-231).  `getRemote` is the result of
`conf.get_remote(&remote_opts)`; `launch` is the oracle giving, for each
stage, the outcome of its `Command::output()` call: `none` models `Err`
(the child could not be spawned, triggering the stage's `unwrap_or_else`
exit), `some st` a completed child.  Push, PullArtifact and PullLock
statuses are otherwise ignored, exactly as in the source; the
RemoteExecute status is kept and decides the final exit code. -/
def mainRun (getRemote : Option Remote) (project_dir : String)
    (copy_back : Option (Option String)) (no_copy_lock hidden : Bool)
    (launch : Stage → Option ProcStatus) : RunTrace :=
  match getRemote with
  | none => ⟨[], 4⟩
  | some remote =>
    let bp := buildPath remote project_dir
    let c1 := rsync_to remote hidden project_dir bp
    match launch .push with
    | none => ⟨[(.push, c1)], -4⟩
    | some _ =>
      let c2 := ssh_cmd remote bp
      match launch .remoteExecute with
      | none => ⟨[(.push, c1), (.remoteExecute, c2)], -5⟩
      | some out =>
        match copy_back with
        | some file_name =>
          let c3 := rsync_back remote project_dir bp (file_name.getD "")
          match launch .pullArtifact with
          | none => ⟨[(.push, c1), (.remoteExecute, c2), (.pullArtifact, c3)], -6⟩
          | some _ =>
            if no_copy_lock then
              ⟨[(.push, c1), (.remoteExecute, c2), (.pullArtifact, c3)], finalExit out⟩
            else
              let c4 := rsync_lock remote project_dir bp
              match launch .pullLock with
              | none =>
                  ⟨[(.push, c1), (.remoteExecute, c2), (.pullArtifact, c3),
                    (.pullLock, c4)], -7⟩
              | some _ =>
                  ⟨[(.push, c1), (.remoteExecute, c2), (.pullArtifact, c3),
                    (.pullLock, c4)], finalExit out⟩
        | none =>
          if no_copy_lock then
            ⟨[(.push, c1), (.remoteExecute, c2)], finalExit out⟩
          else
            let c4 := rsync_lock remote project_dir bp
            match launch .pullLock with
            | none => ⟨[(.push, c1), (.remoteExecute, c2), (.pullLock, c4)], -7⟩
            | some _ => ⟨[(.push, c1), (.remoteExecute, c2), (.pullLock, c4)], finalExit out⟩

/-! ## Remote resolution

`main.rs` line 109 calls `conf.get_remote(&remote_opts)`; the `config`
module itself is not among the sources, so resolution is modelled from the
spec (§4.1, §4.2, §6). -/

/-- The CLI override options (`RemoteOpts` in `main.rs` lines 14-38). -/
structure RemoteOpts where
  name : Option String
  host : Option String
  ssh_port : Option Nat
  temp_dir : Option String
  env : Option String
deriving DecidableEq

/-- Modelled from the spec: a named remote profile from the configuration
store (§3 RemoteProfile, §6), as `config.rs` is not among the sources. -/
structure RemoteProfile where
  name : String
  host : String
  ssh_port : Option Nat
  temp_dir : Option String
  env_profile : Option String
deriving DecidableEq

/-- Modelled from the spec: profile selection (§4.1), as `config.rs` is
not among the sources.  A named profile is looked up by name; with no
name requested, a sole defined remote is the default, and more than one
(or none) yields no profile. -/
def lookupProfile (profiles : List RemoteProfile) (opts : RemoteOpts) :
    Option RemoteProfile :=
  match opts.name with
  | some n => profiles.find? (fun p => p.name == n)
  | none =>
    match profiles with
    | [p] => some p
    | _ => none

/-- Modelled from the spec: `get_remote` / `resolve` (§4.2), as
`config.rs` is not among the sources.  Per field, a CLI override beats the
profile value, which beats the built-in default; only `ssh_port` (22) and
`env_profile` (`/etc/profile`) have built-in defaults.  Resolution fails
(`NoRemoteError`, i.e. `none`) when `host` — or `temp_dir`, which also has
no default — remains unresolved. -/
def get_remote (profiles : List RemoteProfile) (opts : RemoteOpts) :
    Option Remote :=
  let prof := lookupProfile profiles opts
  match opts.host <|> prof.map (fun p => p.host),
        opts.temp_dir <|> (prof.bind (fun p => p.temp_dir)) with
  | some h, some t =>
      some { host := h
             ssh_port := (opts.ssh_port <|> (prof.bind (fun p => p.ssh_port))).getD 22
             temp_dir := t
             env := (opts.env <|> (prof.bind (fun p => p.env_profile))).getD "/etc/profile" }
  | _, _ => none

/-! ## Helper lemmas -/

/-- The final exit computation forwards an exit code faithfully: whether
zero (success, fall through `main`) or non-zero (forwarded via
`exit(code)`), the resulting process exit code is the remote code. -/
theorem finalExit_exited (n : Int) : finalExit (.exited n) = n := by
  by_cases h : n = 0 <;>
    simp [finalExit, ProcStatus.success, ProcStatus.exitCode, h]

/-- `wrap64` produces a 64-bit value. -/
theorem wrap64_lt (x : Nat) : wrap64 x < 2 ^ 64 := by
  have : (0 : Nat) < M64 := by norm_num [M64]
  simpa [wrap64, M64] using Nat.mod_lt x this

/-- The stable hash is a 64-bit value (`DefaultHasher::finish` is `u64`). -/
theorem stable_hash_lt (p : String) : stable_hash p < 2 ^ 64 := by
  unfold stable_hash siphash13
  exact wrap64_lt _

/-- A command carries an rsync exclude filter for `pat`: its argument list
contains the adjacent pair `--exclude pat`. -/
def excludesArg (c : Cmd) (pat : String) : Prop :=
  ∃ l r, c.args = l ++ ["--exclude", pat] ++ r

/-- An excluded pattern occurs among the arguments. -/
theorem excludesArg_mem {c : Cmd} {pat : String} (h : excludesArg c pat) :
    pat ∈ c.args := by
  obtain ⟨l, r, hr⟩ := h
  rw [hr]; simp

/-- Two strings differ when some character is in one and not the other. -/
theorem string_ne_of_char {s t : String} {c : Char} (hs : c ∈ s.data)
    (ht : c ∉ t.data) : s ≠ t := fun h => ht (h ▸ hs)

/-- A character of `a` is a character of `a ++ b`. -/
theorem mem_data_append_left (a b : String) {c : Char} (h : c ∈ a.data) :
    c ∈ (a ++ b).data := by
  rw [String.data_append]; exact List.mem_append_left _ h

/-- A character of `b` is a character of `a ++ b`. -/
theorem mem_data_append_right (a b : String) {c : Char} (h : c ∈ b.data) :
    c ∈ (a ++ b).data := by
  rw [String.data_append]; exact List.mem_append_right _ h

/-! ## Claim theorems -/

/-- Claim C1: if the Push stage fails (its `rsync` process cannot be
launched, `Command::output()` returning `Err`), the run aborts immediately
with Push's designated exit code -4, and the RemoteExecute, PullArtifact
and PullLock stages are never invoked: Push is the only stage whose launch
was ever attempted. -/
theorem push_fail_fast (remote : Remote) (pd : String)
    (cb : Option (Option String)) (ncl hid : Bool)
    (launch : Stage → Option ProcStatus)
    (hp : launch .push = none) :
    (mainRun (some remote) pd cb ncl hid launch).exitCode = -4 ∧
    (mainRun (some remote) pd cb ncl hid launch).launched.map Prod.fst =
      [Stage.push] := by
  simp [mainRun, hp]

/-- Witness for C1: every stage failing to spawn yields exit code -4 with
only Push attempted. -/
theorem push_fail_fast_witness :
    (mainRun (some ⟨"builder", 22, "/tmp/builds", "/etc/profile"⟩) "/home/u/proj"
        none false false (fun _ => none)).exitCode = -4 ∧
    (mainRun (some ⟨"builder", 22, "/tmp/builds", "/etc/profile"⟩) "/home/u/proj"
        none false false (fun _ => none)).launched.map Prod.fst = [Stage.push] :=
  push_fail_fast ⟨"builder", 22, "/tmp/builds", "/etc/profile"⟩ "/home/u/proj"
    none false false (fun _ => none) rfl

/-- Claim C2: when Push, PullArtifact and PullLock all launch and complete
without a launch-level failure and the remote build command exits with
status `n`, the process's final exit code equals `n` — covering both the
forwarding of a non-zero `n` (never the RemoteExecute fatal code -5) and
exit code 0 on full success. -/
theorem remote_status_forwarded (remote : Remote) (pd : String)
    (cb : Option (Option String)) (ncl hid : Bool)
    (launch : Stage → Option ProcStatus)
    (sp sa sl : ProcStatus) (n : Int)
    (hp : launch .push = some sp)
    (he : launch .remoteExecute = some (.exited n))
    (ha : launch .pullArtifact = some sa)
    (hl : launch .pullLock = some sl) :
    (mainRun (some remote) pd cb ncl hid launch).exitCode = n := by
  cases cb <;> cases ncl <;>
    simp [mainRun, hp, he, ha, hl, finalExit_exited]

/-- Witness for C2: a remote build exiting 42 makes the whole run exit 42. -/
theorem remote_status_forwarded_witness :
    (mainRun (some ⟨"builder", 22, "/tmp/builds", "/etc/profile"⟩) "/home/u/proj"
        (some none) false false
        (fun s => match s with
          | .remoteExecute => some (.exited 42)
          | _ => some (.exited 0))).exitCode = 42 :=
  remote_status_forwarded ⟨"builder", 22, "/tmp/builds", "/etc/profile"⟩
    "/home/u/proj" (some none) false false
    (fun s => match s with
      | .remoteExecute => some (.exited 42)
      | _ => some (.exited 0))
    (.exited 0) (.exited 0) (.exited 0) 42 rfl rfl rfl rfl

/-- Claim C3: when resolution produces no usable remote host — no CLI
override and no named/default profile (a named profile that is not found
resolves to no profile) — `get_remote` fails (`NoRemoteError`) and the
program exits with code 4 before any pipeline stage runs (the launch
trace is empty). -/
theorem no_remote_exits_4 (profiles : List RemoteProfile) (opts : RemoteOpts)
    (pd : String) (cb : Option (Option String)) (ncl hid : Bool)
    (launch : Stage → Option ProcStatus)
    (hh : opts.host = none) (hp : lookupProfile profiles opts = none) :
    get_remote profiles opts = none ∧
    mainRun (get_remote profiles opts) pd cb ncl hid launch = ⟨[], 4⟩ := by
  have hg : get_remote profiles opts = none := by
    simp [get_remote, hh, hp]
  exact ⟨hg, by rw [hg]; rfl⟩

/-- Witness for C3: no profiles and no overrides exit with code 4 and an
empty launch trace. -/
theorem no_remote_exits_4_witness :
    get_remote [] ⟨none, none, none, none, none⟩ = none ∧
    mainRun (get_remote [] ⟨none, none, none, none, none⟩) "/home/u/proj"
      none false false (fun _ => none) = ⟨[], 4⟩ :=
  no_remote_exits_4 [] ⟨none, none, none, none, none⟩ "/home/u/proj"
    none false false (fun _ => none) rfl rfl

/-- Claim C4: the derived remote build path is exactly
`temp_dir ++ "/" ++ hash ++ "/"` where `hash` is the decimal rendering of
the 64-bit `stable_hash` of the canonical project root; the hash is below
`2 ^ 64` (64-bit wide, as the spec requires for collision resistance), and
the derivation is deterministic: equal temp dirs and equal project roots
give equal derived paths (the hash has no per-process randomness —
`DefaultHasher::new()` is keyed with constants). -/
theorem derive_build_path (r1 r2 : Remote) (p1 p2 : String)
    (ht : r1.temp_dir = r2.temp_dir) (hp : p1 = p2) :
    buildPath r1 p1 = r1.temp_dir ++ "/" ++ toString (stable_hash p1) ++ "/" ∧
    stable_hash p1 < 2 ^ 64 ∧
    buildPath r1 p1 = buildPath r2 p2 := by
  refine ⟨rfl, stable_hash_lt p1, ?_⟩
  simp [buildPath, ht, hp]

/-- Witness for C4: two remotes sharing a temp dir derive the same path
for the same project root. -/
theorem derive_build_path_witness :
    buildPath ⟨"builder", 22, "/tmp/builds", "/etc/profile"⟩ "/home/u/proj" =
      ("/tmp/builds" : String) ++ "/" ++
        toString (stable_hash "/home/u/proj") ++ "/" ∧
    stable_hash "/home/u/proj" < 2 ^ 64 ∧
    buildPath ⟨"builder", 22, "/tmp/builds", "/etc/profile"⟩ "/home/u/proj" =
      buildPath ⟨"other", 2222, "/tmp/builds", "/etc/profile"⟩ "/home/u/proj" :=
  derive_build_path ⟨"builder", 22, "/tmp/builds", "/etc/profile"⟩
    ⟨"other", 2222, "/tmp/builds", "/etc/profile"⟩ "/home/u/proj" "/home/u/proj"
    rfl rfl

/-- Claim C5: with `copy_back` absent no PullArtifact process launch is
ever attempted, and with `no_copy_lock` set no PullLock process launch is
ever attempted, whatever the other inputs and process outcomes. -/
theorem pull_stage_skip_laws (g : Option Remote) (pd : String)
    (cb : Option (Option String)) (ncl hid : Bool)
    (launch : Stage → Option ProcStatus) :
    (cb = none →
      Stage.pullArtifact ∉
        (mainRun g pd cb ncl hid launch).launched.map Prod.fst) ∧
    (ncl = true →
      Stage.pullLock ∉
        (mainRun g pd cb ncl hid launch).launched.map Prod.fst) := by
  cases g with
  | none => simp [mainRun]
  | some remote =>
    rcases h1 : launch Stage.push with _ | s1 <;>
      rcases h2 : launch Stage.remoteExecute with _ | s2 <;>
      rcases h3 : launch Stage.pullArtifact with _ | s3 <;>
      rcases h4 : launch Stage.pullLock with _ | s4 <;>
      cases cb <;> cases ncl <;>
      constructor <;> rintro h <;>
      simp_all [mainRun]

/-- Witness for C5: with `copy_back = none` and `no_copy_lock = true`
neither pull stage appears in the launch trace. -/
theorem pull_stage_skip_laws_witness :
    Stage.pullArtifact ∉
      ((mainRun (some ⟨"builder", 22, "/tmp/builds", "/etc/profile"⟩) "/home/u/proj"
        none true false (fun _ => some (.exited 0))).launched.map Prod.fst) ∧
    Stage.pullLock ∉
      ((mainRun (some ⟨"builder", 22, "/tmp/builds", "/etc/profile"⟩) "/home/u/proj"
        none true false (fun _ => some (.exited 0))).launched.map Prod.fst) :=
  ⟨(pull_stage_skip_laws (some ⟨"builder", 22, "/tmp/builds", "/etc/profile"⟩)
      "/home/u/proj" none true false (fun _ => some (.exited 0))).1 rfl,
   (pull_stage_skip_laws (some ⟨"builder", 22, "/tmp/builds", "/etc/profile"⟩)
      "/home/u/proj" none true false (fun _ => some (.exited 0))).2 rfl⟩

/-- Claim C6: the Push transfer command excludes the local build-output
directory `target` unconditionally, and excludes dot-files/directories
(`.*`) if and only if the `transfer_hidden` flag is not set. -/
theorem push_exclude_policy (remote : Remote) (pd : String) (hid : Bool) :
    excludesArg (rsync_to remote hid pd (buildPath remote pd)) "target" ∧
    (excludesArg (rsync_to remote hid pd (buildPath remote pd)) ".*" ↔
      hid = false) := by
  constructor
  · exact ⟨["-a", "--delete", "--compress", "-e",
      "ssh -p " ++ toString remote.ssh_port, PROGRESS_FLAG],
      (if hid then [] else ["--exclude", ".*"]) ++
        ["--rsync-path", "mkdir -p rust && rsync", pd ++ "/",
         remote.host ++ ":" ++ buildPath remote pd],
      by simp [rsync_to]⟩
  · constructor
    · intro hex
      cases hid with
      | false => rfl
      | true =>
        exfalso
        have hmem := excludesArg_mem hex
        simp [rsync_to, PROGRESS_FLAG] at hmem
        rcases hmem with h | h | h
        · exact string_ne_of_char
            (mem_data_append_left "ssh -p " (toString remote.ssh_port)
              (c := 's') (by decide)) (by decide) h.symm
        · exact string_ne_of_char
            (mem_data_append_right pd "/" (c := '/') (by decide))
            (by decide) h.symm
        · exact string_ne_of_char
            (mem_data_append_left (remote.host ++ ":") (buildPath remote pd)
              (c := ':') (mem_data_append_right remote.host ":" (by decide)))
            (by decide) h.symm
    · intro hf
      subst hf
      exact ⟨["-a", "--delete", "--compress", "-e",
        "ssh -p " ++ toString remote.ssh_port, PROGRESS_FLAG,
        "--exclude", "target"],
        ["--rsync-path", "mkdir -p rust && rsync", pd ++ "/",
         remote.host ++ ":" ++ buildPath remote pd],
        by simp [rsync_to]⟩

/-- Witness for C6 at a concrete remote with `transfer_hidden` unset. -/
theorem push_exclude_policy_witness :
    excludesArg (rsync_to ⟨"builder", 22, "/tmp/builds", "/etc/profile"⟩ false
      "/home/u/proj"
      (buildPath ⟨"builder", 22, "/tmp/builds", "/etc/profile"⟩ "/home/u/proj"))
      "target" ∧
    (excludesArg (rsync_to ⟨"builder", 22, "/tmp/builds", "/etc/profile"⟩ false
      "/home/u/proj"
      (buildPath ⟨"builder", 22, "/tmp/builds", "/etc/profile"⟩ "/home/u/proj"))
      ".*" ↔ false = false) :=
  push_exclude_policy ⟨"builder", 22, "/tmp/builds", "/etc/profile"⟩
    "/home/u/proj" false

/-- The property claim C7 asserts, following the spec's words (§4.4
Stage 1): the Push command's remote-side `--rsync-path` prelude runs
`mkdir -p` on the transfer destination's parent directory, which for the
destination `temp_dir/hash/` is `temp_dir`. -/
def specPushMkdirParent (remote : Remote) (hid : Bool) (pd : String) : Prop :=
  ∃ l r, (rsync_to remote hid pd (buildPath remote pd)).args =
    l ++ ["--rsync-path", "mkdir -p " ++ remote.temp_dir ++ " && rsync"] ++ r

/-- Counterexample to claim C7: with `temp_dir = "/tmp/builds"` the Push
command never passes `mkdir -p /tmp/builds && rsync`; its `--rsync-path`
argument is the fixed string `mkdir -p rust && rsync` (`main.rs` line
143), which does not create the destination's parent. -/
theorem push_mkdir_not_parent :
    ¬ specPushMkdirParent ⟨"builder", 22, "/tmp/builds", "/etc/profile"⟩
      false "/home/u/proj" := by
  intro h
  obtain ⟨l, r, hr⟩ := h
  have hmem : ("mkdir -p /tmp/builds && rsync" : String) ∈
      (rsync_to ⟨"builder", 22, "/tmp/builds", "/etc/profile"⟩ false "/home/u/proj"
        (buildPath ⟨"builder", 22, "/tmp/builds", "/etc/profile"⟩
          "/home/u/proj")).args := by
    have heq : ("mkdir -p " ++ ("/tmp/builds" : String) ++ " && rsync") =
        "mkdir -p /tmp/builds && rsync" := by decide
    rw [hr, ← heq]
    simp
  revert hmem
  decide

/-- Claim C7 as amended: the Push stage's transfer command always prefixes
the remote rsync invocation with `mkdir -p rust`, creating the fixed
remote directory `rust` (the destination's parent only when `temp_dir`
is `rust`) — not the derived build path's parent in general. -/
theorem push_mkdir_fixed_rust (remote : Remote) (hid : Bool) (pd bp : String) :
    ∃ l r, (rsync_to remote hid pd bp).args =
      l ++ ["--rsync-path", "mkdir -p rust && rsync"] ++ r := by
  refine ⟨["-a", "--delete", "--compress", "-e",
    "ssh -p " ++ toString remote.ssh_port, PROGRESS_FLAG,
    "--exclude", "target"] ++ (if hid then [] else ["--exclude", ".*"]),
    [pd ++ "/", remote.host ++ ":" ++ bp], ?_⟩
  simp [rsync_to]

/-- Witness for the amended C7 at a concrete input. -/
theorem push_mkdir_fixed_rust_witness :
    ∃ l r, (rsync_to ⟨"builder", 22, "/tmp/builds", "/etc/profile"⟩ false
        "/home/u/proj" "/tmp/builds/1234/").args =
      l ++ ["--rsync-path", "mkdir -p rust && rsync"] ++ r :=
  push_mkdir_fixed_rust ⟨"builder", 22, "/tmp/builds", "/etc/profile"⟩ false
    "/home/u/proj" "/tmp/builds/1234/"

/-- The dot-file part of the policy claim C8 asserts, following the spec's
words (§4.4 Stage 3): the PullArtifact command applies the same
exclude-dotfiles policy as the Push command of the same run. -/
def specPullSameExcludePolicy (remote : Remote) (hid : Bool)
    (pd f : String) : Prop :=
  excludesArg (rsync_back remote pd (buildPath remote pd) f) ".*" ↔
    excludesArg (rsync_to remote hid pd (buildPath remote pd)) ".*"

/-- Counterexample to claim C8: in a run with `transfer_hidden` unset the
Push command excludes `.*` but the PullArtifact command carries no
`--exclude` filter at all (`main.rs` lines 176-191), so the two stages do
not share the exclude-dotfiles policy. -/
theorem pull_exclude_policy_differs :
    ¬ specPullSameExcludePolicy ⟨"builder", 22, "/tmp/builds", "/etc/profile"⟩
      false "/home/u/proj" "" := by
  intro h
  have hpush : excludesArg
      (rsync_to ⟨"builder", 22, "/tmp/builds", "/etc/profile"⟩ false "/home/u/proj"
        (buildPath ⟨"builder", 22, "/tmp/builds", "/etc/profile"⟩ "/home/u/proj"))
      ".*" :=
    ⟨["-a", "--delete", "--compress", "-e", "ssh -p " ++ toString (22 : Nat),
      PROGRESS_FLAG, "--exclude", "target"],
     ["--rsync-path", "mkdir -p rust && rsync", "/home/u/proj" ++ "/",
      "builder" ++ ":" ++
        buildPath ⟨"builder", 22, "/tmp/builds", "/etc/profile"⟩ "/home/u/proj"],
     by simp [rsync_to]⟩
  have hpull := excludesArg_mem (h.mpr hpush)
  revert hpull
  decide

/-- Claim C8 as amended: the PullArtifact stage synchronizes
`host:build_path/target/<name-or-empty>` back to the local project's
target directory (`copy_back` with no value gives the empty name, copying
the whole artifact directory; a value copies that one artifact), with the
same archive/compress transfer options as Push (its first six arguments)
but with no exclude filters — in particular no dot-file exclusion,
whatever `transfer_hidden` was. -/
theorem pull_artifact_mirror (remote : Remote) (hid : Bool) (pd f : String) :
    ((rsync_back remote pd (buildPath remote pd) f).args.take 6 =
      (rsync_to remote hid pd (buildPath remote pd)).args.take 6) ∧
    ((rsync_back remote pd (buildPath remote pd) f).args.drop 6 =
      [remote.host ++ ":" ++ buildPath remote pd ++ "target/" ++ f,
       pd ++ "/target/" ++ f]) ∧
    ¬ excludesArg (rsync_back remote pd (buildPath remote pd) f) ".*" := by
  refine ⟨rfl, rfl, ?_⟩
  intro hex
  have hmem := excludesArg_mem hex
  simp [rsync_back, PROGRESS_FLAG] at hmem
  rcases hmem with h | h | h
  · exact string_ne_of_char
      (mem_data_append_left "ssh -p " (toString remote.ssh_port)
        (c := 's') (by decide)) (by decide) h.symm
  · exact string_ne_of_char
      (mem_data_append_left
        (remote.host ++ ":" ++ buildPath remote pd ++ "target/") f (c := '/')
        (mem_data_append_right (remote.host ++ ":" ++ buildPath remote pd)
          "target/" (by decide)))
      (by decide) h.symm
  · exact string_ne_of_char
      (mem_data_append_left (pd ++ "/target/") f (c := '/')
        (mem_data_append_right pd "/target/" (by decide)))
      (by decide) h.symm

/-- Witness for the amended C8 at a concrete input with `copy_back`
present without a value. -/
theorem pull_artifact_mirror_witness :
    ((rsync_back ⟨"builder", 22, "/tmp/builds", "/etc/profile"⟩ "/home/u/proj"
        (buildPath ⟨"builder", 22, "/tmp/builds", "/etc/profile"⟩ "/home/u/proj")
        "").args.take 6 =
      (rsync_to ⟨"builder", 22, "/tmp/builds", "/etc/profile"⟩ true "/home/u/proj"
        (buildPath ⟨"builder", 22, "/tmp/builds", "/etc/profile"⟩
          "/home/u/proj")).args.take 6) ∧
    ((rsync_back ⟨"builder", 22, "/tmp/builds", "/etc/profile"⟩ "/home/u/proj"
        (buildPath ⟨"builder", 22, "/tmp/builds", "/etc/profile"⟩ "/home/u/proj")
        "").args.drop 6 =
      [("builder" : String) ++ ":" ++
         buildPath ⟨"builder", 22, "/tmp/builds", "/etc/profile"⟩ "/home/u/proj" ++
         "target/" ++ "",
       ("/home/u/proj" : String) ++ "/target/" ++ ""]) ∧
    ¬ excludesArg (rsync_back ⟨"builder", 22, "/tmp/builds", "/etc/profile"⟩
        "/home/u/proj"
        (buildPath ⟨"builder", 22, "/tmp/builds", "/etc/profile"⟩ "/home/u/proj")
        "") ".*" :=
  pull_artifact_mirror ⟨"builder", 22, "/tmp/builds", "/etc/profile"⟩ true
    "/home/u/proj" ""

/-- Claim C9: every run that reaches Stage 2 (resolution succeeded and
Push launched) attempts the RemoteExecute launch right after Push, with an
interactive (`-t`) `ssh` session to the resolved host on the resolved
`ssh_port`, whose remote command sources the resolved `env` profile, then
changes into the derived build path, then invokes the remote build entry
point (`nix-shell`); and failure to establish the session exits with the
distinct fatal code -5, with no later stage attempted. -/
theorem remote_execute_session (remote : Remote) (pd : String)
    (cb : Option (Option String)) (ncl hid : Bool)
    (launch : Stage → Option ProcStatus) (sp : ProcStatus)
    (hp : launch .push = some sp) :
    ∃ c : Cmd,
      ((mainRun (some remote) pd cb ncl hid launch).launched.take 2 =
        [(Stage.push, rsync_to remote hid pd (buildPath remote pd)),
         (Stage.remoteExecute, c)]) ∧
      c.program = "ssh" ∧
      c.args = ["-p", toString remote.ssh_port, "-t", remote.host,
                "source " ++ remote.env ++ "; cd " ++ buildPath remote pd ++
                  "; nix-shell;"] ∧
      (launch .remoteExecute = none →
        (mainRun (some remote) pd cb ncl hid launch).exitCode = -5 ∧
        (mainRun (some remote) pd cb ncl hid launch).launched.map Prod.fst =
          [Stage.push, Stage.remoteExecute]) := by
  refine ⟨ssh_cmd remote (buildPath remote pd), ?_, rfl, rfl, ?_⟩
  · rcases h2 : launch Stage.remoteExecute with _ | s2 <;>
      cases cb <;> cases ncl <;>
      rcases h4 : launch Stage.pullLock with _ | s4 <;>
      rcases h3 : launch Stage.pullArtifact with _ | s3 <;>
      simp [mainRun, hp, h2, h3, h4]
  · intro h2
    simp [mainRun, hp, h2]

/-- Witness for C9: with Push spawned and the ssh session failing to
spawn, the run shows the ssh command and exits -5. -/
theorem remote_execute_session_witness :
    ∃ c : Cmd,
      ((mainRun (some ⟨"builder", 22, "/tmp/builds", "/etc/profile"⟩) "/home/u/proj"
          none false false
          (fun s => match s with
            | .push => some (.exited 0)
            | _ => none)).launched.take 2 =
        [(Stage.push, rsync_to ⟨"builder", 22, "/tmp/builds", "/etc/profile"⟩ false
            "/home/u/proj"
            (buildPath ⟨"builder", 22, "/tmp/builds", "/etc/profile"⟩ "/home/u/proj")),
         (Stage.remoteExecute, c)]) ∧
      c.program = "ssh" ∧
      c.args = ["-p", toString (22 : Nat), "-t", "builder",
                "source " ++ ("/etc/profile" : String) ++ "; cd " ++
                  buildPath ⟨"builder", 22, "/tmp/builds", "/etc/profile"⟩
                    "/home/u/proj" ++ "; nix-shell;"] ∧
      ((fun s => match s with
          | Stage.push => some (ProcStatus.exited 0)
          | _ => none) Stage.remoteExecute = none →
        (mainRun (some ⟨"builder", 22, "/tmp/builds", "/etc/profile"⟩) "/home/u/proj"
          none false false
          (fun s => match s with
            | .push => some (.exited 0)
            | _ => none)).exitCode = -5 ∧
        (mainRun (some ⟨"builder", 22, "/tmp/builds", "/etc/profile"⟩) "/home/u/proj"
          none false false
          (fun s => match s with
            | .push => some (.exited 0)
            | _ => none)).launched.map Prod.fst =
          [Stage.push, Stage.remoteExecute]) :=
  remote_execute_session ⟨"builder", 22, "/tmp/builds", "/etc/profile"⟩
    "/home/u/proj" none false false
    (fun s => match s with
      | .push => some (.exited 0)
      | _ => none)
    (.exited 0) rfl

/-- Claim C10: when all launched stages spawn successfully but the remote
build command terminates without an exit code (killed by a signal), the
process exits with the fallback code 1 (`code().unwrap_or(1)`). -/
theorem remote_signal_exit_one (remote : Remote) (pd : String)
    (cb : Option (Option String)) (ncl hid : Bool)
    (launch : Stage → Option ProcStatus)
    (sp sa sl : ProcStatus)
    (hp : launch .push = some sp)
    (he : launch .remoteExecute = some .signaled)
    (ha : launch .pullArtifact = some sa)
    (hl : launch .pullLock = some sl) :
    (mainRun (some remote) pd cb ncl hid launch).exitCode = 1 := by
  cases cb <;> cases ncl <;>
    simp [mainRun, hp, he, ha, hl, finalExit, ProcStatus.success,
      ProcStatus.exitCode]

/-- Witness for C10: a signal-terminated remote build makes the run exit 1. -/
theorem remote_signal_exit_one_witness :
    (mainRun (some ⟨"builder", 22, "/tmp/builds", "/etc/profile"⟩) "/home/u/proj"
        (some none) false false
        (fun s => match s with
          | .remoteExecute => some .signaled
          | _ => some (.exited 0))).exitCode = 1 :=
  remote_signal_exit_one ⟨"builder", 22, "/tmp/builds", "/etc/profile"⟩
    "/home/u/proj" (some none) false false
    (fun s => match s with
      | .remoteExecute => some .signaled
      | _ => some (.exited 0))
    (.exited 0) (.exited 0) (.exited 0) rfl rfl rfl rfl
